import Mathlib

/-!
Shallow embedding of flashrom's `linux_gpiod.c` (the Linux GPIO bit-bang SPI
backend) and verification of its specified behaviour.

The external libgpiod collaborator is modelled by an environment `Env` that
fixes the outcome of every fallible external call; each embedded function
produces the trace of external calls and diagnostics it performs, so that
"performs zero GPIO calls", "exactly one bulk-release", etc. become countable
properties of the trace.
-/

namespace LinuxGpiod

/-- One observable external action of the backend: a libgpiod call or a
diagnostic message sent to the logging sink (`msg_perr`).  `freeData` records
the `free(data)` of the backend state (not a GPIO call, but needed to state
the double-free properties). -/
inductive Event where
  | chipOpen (idx : Nat)              -- gpiod_chip_open_by_number(idx)
  | bulkLookup (offsets : List Nat)   -- gpiod_chip_get_lines(chip, offsets, 4, &bulk)
  | requestOutput (role : Nat) (initial : Int)  -- gpiod_line_request_output(line, CONSUMER, initial)
  | requestInput (role : Nat)         -- gpiod_line_request_input(line, CONSUMER)
  | releaseBulk (n : Nat)             -- gpiod_line_release_bulk on a bulk of n lines
  | chipClose                         -- gpiod_chip_close
  | setValue (role : Nat) (val : Int) -- gpiod_line_set_value(line, val)
  | getValue (role : Nat)             -- gpiod_line_get_value(line)
  | freeData                          -- free(data)
  | msg (s : String)                  -- msg_perr(s)
  deriving DecidableEq, Repr

/-- Calls into the GPIO collaborator (everything except logging and `free`). -/
def Event.isGpioCall : Event → Bool
  | .chipOpen _ => true
  | .bulkLookup _ => true
  | .requestOutput _ _ => true
  | .requestInput _ => true
  | .releaseBulk _ => true
  | .chipClose => true
  | .setValue _ _ => true
  | .getValue _ => true
  | _ => false

def Event.isRelease : Event → Bool
  | .releaseBulk _ => true
  | _ => false

def Event.isClose : Event → Bool
  | .chipClose => true
  | _ => false

def Event.isFree : Event → Bool
  | .freeData => true
  | _ => false

def Event.isRequest : Event → Bool
  | .requestOutput _ _ => true
  | .requestInput _ => true
  | _ => false

def gpioCallCount (t : List Event) : Nat := t.countP (fun e => e.isGpioCall)

def releaseCount (t : List Event) : Nat := t.countP (fun e => e.isRelease)

def closeCount (t : List Event) : Nat := t.countP (fun e => e.isClose)

def freeCount (t : List Event) : Nat := t.countP (fun e => e.isFree)

def requestCount (t : List Event) : Nat := t.countP (fun e => e.isRequest)

/-- Model of `struct gpiod_spi_data`: `chip` records whether the `chip` member is
non-NULL, `bulkNum` the number of lines held by the embedded `bulk` member
(`gpiod_line_bulk_num_lines(&data->bulk)`); `calloc` zeroes both.  The four
`*_line` convenience members are the bulk's lines at positional roles
0 = cs, 1 = sck, 2 = mosi, 3 = miso and are represented by those role
indices in the trace events. -/
structure GpiodSpiData where
  chip : Bool
  bulkNum : Nat
  deriving DecidableEq, Repr

/-- The programmer configuration as seen through
`extract_programmer_param_str` + `atoi`: each of the five parameters is
either absent or a non-negative integer. -/
structure Cfg where
  cs : Option Nat
  sck : Option Nat
  mosi : Option Nat
  miso : Option Nat
  gpiochip : Option Nat
  deriving DecidableEq, Repr

/-- Outcomes of the fallible external calls made by `linux_gpiod_spi_init`,
fixed up front: allocation, chip open, bulk lookup, the four direction
requests (the libgpiod request calls return an `int`, negative on failure),
and the two registrations (zero on success). -/
structure Env where
  allocOk : Bool
  chipOpenOk : Bool
  lookupOk : Bool
  reqCs : Int
  reqSck : Int
  reqMosi : Int
  reqMiso : Int
  shutdownRegOk : Bool
  spiRegOk : Bool
  deriving DecidableEq, Repr

/-- Result of `linux_gpiod_spi_init`: its return value, the trace of external
actions, whether the shutdown hook stayed registered (owning the cleanup
obligation), and the backend state when it is still allocated on return. -/
structure InitResult where
  ret : Int
  trace : List Event
  shutdownRegistered : Bool
  data : Option GpiodSpiData
  deriving DecidableEq, Repr

def missingMsg (name : String) : String :=
  "Missing required programmer parameter " ++ name ++ "=<n>\n"

/-- The `err_exit` label of `linux_gpiod_spi_init`: given the trace so far,
the allocated backend state (if any) and the local `chip` variable, release
the bulk if it holds lines, free the state, and close the chip if open. -/
def err_exit (pre : List Event) (data : Option GpiodSpiData) (chip : Bool) :
    InitResult :=
  let cleanup :=
    (match data with
     | some d =>
        (if d.bulkNum > 0 then [Event.releaseBulk d.bulkNum] else [])
          ++ [Event.freeData]
     | none => [])
    ++ (if chip then [Event.chipClose] else [])
  { ret := 1, trace := pre ++ cleanup, shutdownRegistered := false, data := none }

/-- Body of `linux_gpiod_spi_init` after all five parameters resolved. -/
def initBody (cs sck mosi miso gpiochip : Nat) (env : Env) : InitResult :=
  if env.allocOk = false then
    err_exit [Event.msg "Unable to allocate space for SPI master data\n"] none false
  else
    let t0 := [Event.chipOpen gpiochip]
    if env.chipOpenOk = false then
      -- the C message is "Failed to open gpiochip: %s\n" with strerror(errno);
      -- the errno text comes from the environment and is elided here
      err_exit (t0 ++ [Event.msg "Failed to open gpiochip\n"]) (some ⟨false, 0⟩) false
    else
      let t1 := t0 ++ [Event.bulkLookup [cs, sck, mosi, miso]]
      if env.lookupOk = false then
        err_exit (t1 ++ [Event.msg "Error getting GPIO lines\n"]) (some ⟨true, 0⟩) true
      else
        let t2 := t1 ++ [Event.requestOutput 0 1, Event.requestOutput 1 1,
                         Event.requestOutput 2 1, Event.requestInput 3]
        let r := ((env.reqCs.lor env.reqSck).lor env.reqMosi).lor env.reqMiso
        if r < 0 then
          err_exit (t2 ++ [Event.msg "Requesting GPIO lines failed\n"]) (some ⟨true, 4⟩) true
        else if env.shutdownRegOk = false then
          err_exit t2 (some ⟨true, 4⟩) true
        else if env.spiRegOk = false then
          -- register_spi_bitbang_master failed; "shutdown function does the cleanup"
          { ret := 1, trace := t2, shutdownRegistered := true, data := some ⟨true, 4⟩ }
        else
          { ret := 0, trace := t2, shutdownRegistered := true, data := some ⟨true, 4⟩ }

/-- Embedding of `linux_gpiod_spi_init`: resolve the five parameters in order (first
missing one is diagnosed and aborts), then run the body. -/
def linux_gpiod_spi_init (cfg : Cfg) (env : Env) : InitResult :=
  match cfg.cs with
  | none => err_exit [Event.msg (missingMsg "cs")] none false
  | some cs =>
    match cfg.sck with
    | none => err_exit [Event.msg (missingMsg "sck")] none false
    | some sck =>
      match cfg.mosi with
      | none => err_exit [Event.msg (missingMsg "mosi")] none false
      | some mosi =>
        match cfg.miso with
        | none => err_exit [Event.msg (missingMsg "miso")] none false
        | some miso =>
          match cfg.gpiochip with
          | none => err_exit [Event.msg (missingMsg "gpiochip")] none false
          | some gpiochip => initBody cs sck mosi miso gpiochip env

/-- Embedding of `linux_gpiod_spi_shutdown` on a backend state: release the bulk when it
holds lines, close the chip when open, free the state; returns 0. -/
def linux_gpiod_spi_shutdown (d : GpiodSpiData) : List Event × Int :=
  ((if d.bulkNum > 0 then [Event.releaseBulk d.bulkNum] else [])
     ++ (if d.chip then [Event.chipClose] else [])
     ++ [Event.freeData],
   0)

/-- A heap cell holding a `gpiod_spi_data`.  `allocated` tracks whether the
cell is live; a freed cell keeps its last contents (modelling that the C code
has no way to observe that the memory behind the pointer was freed). -/
structure Cell where
  val : GpiodSpiData
  allocated : Bool
  deriving DecidableEq, Repr

/-- Behaviour of `linux_gpiod_spi_shutdown` invoked on a heap cell: the function
unconditionally dereferences the pointer and frees it; it contains no guard
on `allocated`, so the emitted actions depend only on the (possibly stale)
contents. -/
def shutdownOnCell (c : Cell) : List Event × Cell :=
  ((linux_gpiod_spi_shutdown c.val).1, { c with allocated := false })

/-- Embedding of `linux_gpiod_bitbang_set_cs`: write `val` to the cs line (role 0);
`setResult` is the result of `gpiod_line_set_value`. -/
def linux_gpiod_bitbang_set_cs (val : Int) (setResult : Int) : List Event :=
  Event.setValue 0 val ::
    (if setResult < 0 then [Event.msg "Setting cs line failed\n"] else [])

/-- Embedding of `linux_gpiod_bitbang_set_sck`: write `val` to the sck line (role 1). -/
def linux_gpiod_bitbang_set_sck (val : Int) (setResult : Int) : List Event :=
  Event.setValue 1 val ::
    (if setResult < 0 then [Event.msg "Setting sck line failed\n"] else [])

/-- Embedding of `linux_gpiod_bitbang_set_mosi`: write `val` to the mosi line (role 2).
Its failure diagnostic is the literal from the source. -/
def linux_gpiod_bitbang_set_mosi (val : Int) (setResult : Int) : List Event :=
  Event.setValue 2 val ::
    (if setResult < 0 then [Event.msg "Setting sck line failed\n"] else [])

/-- Embedding of `linux_gpiod_bitbang_get_miso`: read the miso line (role 3);
`getResult` is the result of `gpiod_line_get_value` (the sampled level, or a
negative value on failure); the function returns it unchanged. -/
def linux_gpiod_bitbang_get_miso (getResult : Int) : Int × List Event :=
  (getResult,
   Event.getValue 3 ::
     (if getResult < 0 then [Event.msg "Getting miso line failed\n"] else []))

/-- Substring test used to state that a diagnostic does not name a line. -/
def strContainsAux (pat : List Char) : List Char → Bool
  | [] => pat.isEmpty
  | c :: rest => pat.isPrefixOf (c :: rest) || strContainsAux pat rest

def strContains (hay pat : String) : Bool :=
  strContainsAux pat.data hay.data

/-- The parameter names, indexed in the order the init loop checks them
(`param_str` in the source). -/
def paramName (i : Fin 5) : String :=
  match i.val with
  | 0 => "cs"
  | 1 => "sck"
  | 2 => "mosi"
  | 3 => "miso"
  | _ => "gpiochip"

/-- Configuration lookup by the init loop's index. -/
def cfgGet (cfg : Cfg) (i : Fin 5) : Option Nat :=
  match i.val with
  | 0 => cfg.cs
  | 1 => cfg.sck
  | 2 => cfg.mosi
  | 3 => cfg.miso
  | _ => cfg.gpiochip

/-- The diagnostics of a trace, in order. -/
def msgsOf (t : List Event) : List String :=
  t.filterMap (fun e => match e with | .msg s => some s | _ => none)

/-- Sign of a two's-complement bitwise or: the result is negative exactly
when one of the operands is (this is what makes the C idiom
`r |= request(...)` followed by `if (r < 0)` detect any failed request). -/
theorem lor_neg_iff (a b : Int) : a.lor b < 0 ↔ (a < 0 ∨ b < 0) := by
  cases a <;> cases b <;> simp [Int.lor, Int.negSucc_lt_zero] <;> omega

/-- The accumulated request result of the init path is negative exactly when
at least one of the four request results is. -/
theorem accumulated_neg_iff (env : Env) :
    ((((env.reqCs.lor env.reqSck).lor env.reqMosi).lor env.reqMiso) < 0 ↔
      (env.reqCs < 0 ∨ env.reqSck < 0 ∨ env.reqMosi < 0 ∨ env.reqMiso < 0)) := by
  rw [lor_neg_iff, lor_neg_iff, lor_neg_iff]
  tauto

/-- C1: if any of the four line-direction requests fails once initialization
has reached the request stage (parameters resolved, allocation, chip open and
bulk lookup all succeeded), then the four looked-up lines are released by
exactly one bulk-release call, the controller is closed, and initialization
returns failure. -/
theorem C1_request_failure_releases_all (a b c d e : Nat) (env : Env)
    (halloc : env.allocOk = true) (hopen : env.chipOpenOk = true)
    (hlookup : env.lookupOk = true)
    (hfail : env.reqCs < 0 ∨ env.reqSck < 0 ∨ env.reqMosi < 0 ∨ env.reqMiso < 0) :
    let res := linux_gpiod_spi_init ⟨some a, some b, some c, some d, some e⟩ env
    res.ret = 1 ∧ releaseCount res.trace = 1 ∧ Event.releaseBulk 4 ∈ res.trace ∧
      closeCount res.trace = 1 := by
  have hr : ((((env.reqCs.lor env.reqSck).lor env.reqMosi).lor env.reqMiso) < 0) :=
    (accumulated_neg_iff env).mpr hfail
  simp [linux_gpiod_spi_init, initBody, err_exit, halloc, hopen, hlookup, hr,
    releaseCount, closeCount, Event.isRelease, Event.isClose, List.countP_cons,
    List.countP_nil]

/-- Witness for C1 at a concrete configuration and environment. -/
theorem C1_witness :
    let env : Env := ⟨true, true, true, 0, 0, 0, -1, true, true⟩
    let res := linux_gpiod_spi_init ⟨some 5, some 6, some 7, some 8, some 0⟩ env
    res.ret = 1 ∧ releaseCount res.trace = 1 ∧ Event.releaseBulk 4 ∈ res.trace ∧
      closeCount res.trace = 1 :=
  C1_request_failure_releases_all 5 6 7 8 0 ⟨true, true, true, 0, 0, 0, -1, true, true⟩
    rfl rfl rfl (by decide)

/-- C3: once the request stage is reached, all four line-direction requests
appear in the trace whatever their results (no short-circuit); the
"Requesting GPIO lines failed" path is taken exactly when the bitwise-OR
accumulated result is negative, which holds exactly when at least one of the
four requests returned a negative result; that path returns failure. -/
theorem C3_attempt_all_accumulate_or (a b c d e : Nat) (env : Env)
    (halloc : env.allocOk = true) (hopen : env.chipOpenOk = true)
    (hlookup : env.lookupOk = true) :
    let res := linux_gpiod_spi_init ⟨some a, some b, some c, some d, some e⟩ env
    (Event.requestOutput 0 1 ∈ res.trace ∧ Event.requestOutput 1 1 ∈ res.trace ∧
     Event.requestOutput 2 1 ∈ res.trace ∧ Event.requestInput 3 ∈ res.trace) ∧
    (Event.msg "Requesting GPIO lines failed\n" ∈ res.trace ↔
       ((((env.reqCs.lor env.reqSck).lor env.reqMosi).lor env.reqMiso) < 0)) ∧
    ((((env.reqCs.lor env.reqSck).lor env.reqMosi).lor env.reqMiso) < 0 ↔
       (env.reqCs < 0 ∨ env.reqSck < 0 ∨ env.reqMosi < 0 ∨ env.reqMiso < 0)) ∧
    ((((env.reqCs.lor env.reqSck).lor env.reqMosi).lor env.reqMiso) < 0 →
       res.ret = 1) := by
  refine ⟨?_, ?_, accumulated_neg_iff env, ?_⟩ <;>
    (simp only [linux_gpiod_spi_init, initBody, err_exit, halloc, hopen, hlookup]
     split_ifs <;> simp_all)

/-- Witness for C3 at a concrete configuration and environment. -/
theorem C3_witness :
    let env : Env := ⟨true, true, true, 0, -2, 0, 0, true, true⟩
    let res := linux_gpiod_spi_init ⟨some 5, some 6, some 7, some 8, some 0⟩ env
    (Event.requestOutput 0 1 ∈ res.trace ∧ Event.requestOutput 1 1 ∈ res.trace ∧
     Event.requestOutput 2 1 ∈ res.trace ∧ Event.requestInput 3 ∈ res.trace) ∧
    (Event.msg "Requesting GPIO lines failed\n" ∈ res.trace ↔
       ((((env.reqCs.lor env.reqSck).lor env.reqMosi).lor env.reqMiso) < 0)) ∧
    ((((env.reqCs.lor env.reqSck).lor env.reqMosi).lor env.reqMiso) < 0 ↔
       (env.reqCs < 0 ∨ env.reqSck < 0 ∨ env.reqMosi < 0 ∨ env.reqMiso < 0)) ∧
    ((((env.reqCs.lor env.reqSck).lor env.reqMosi).lor env.reqMiso) < 0 →
       res.ret = 1) :=
  C3_attempt_all_accumulate_or 5 6 7 8 0 ⟨true, true, true, 0, -2, 0, 0, true, true⟩
    rfl rfl rfl

/-- C4: on a fully successful initialization the chip-select, clock and
data-out lines are requested as outputs with initial value logic-high (1),
data-in as an input, no release and no close is performed, and init
returns 0. -/
theorem C4_success_state (a b c d e : Nat) (env : Env)
    (halloc : env.allocOk = true) (hopen : env.chipOpenOk = true)
    (hlookup : env.lookupOk = true)
    (hcs : 0 ≤ env.reqCs) (hsck : 0 ≤ env.reqSck)
    (hmosi : 0 ≤ env.reqMosi) (hmiso : 0 ≤ env.reqMiso)
    (hsr : env.shutdownRegOk = true) (hspi : env.spiRegOk = true) :
    let res := linux_gpiod_spi_init ⟨some a, some b, some c, some d, some e⟩ env
    res.ret = 0 ∧
    Event.requestOutput 0 1 ∈ res.trace ∧ Event.requestOutput 1 1 ∈ res.trace ∧
    Event.requestOutput 2 1 ∈ res.trace ∧ Event.requestInput 3 ∈ res.trace ∧
    releaseCount res.trace = 0 ∧ closeCount res.trace = 0 := by
  have hr : ¬ ((((env.reqCs.lor env.reqSck).lor env.reqMosi).lor env.reqMiso) < 0) := by
    rw [accumulated_neg_iff]
    omega
  simp [linux_gpiod_spi_init, initBody, err_exit, halloc, hopen, hlookup, hr,
    hsr, hspi, releaseCount, closeCount, Event.isRelease, Event.isClose,
    List.countP_cons, List.countP_nil]

/-- Witness for C4 at a concrete configuration and environment. -/
theorem C4_witness :
    let env : Env := ⟨true, true, true, 0, 0, 0, 0, true, true⟩
    let res := linux_gpiod_spi_init ⟨some 5, some 6, some 7, some 8, some 0⟩ env
    res.ret = 0 ∧
    Event.requestOutput 0 1 ∈ res.trace ∧ Event.requestOutput 1 1 ∈ res.trace ∧
    Event.requestOutput 2 1 ∈ res.trace ∧ Event.requestInput 3 ∈ res.trace ∧
    releaseCount res.trace = 0 ∧ closeCount res.trace = 0 :=
  C4_success_state 5 6 7 8 0 ⟨true, true, true, 0, 0, 0, 0, true, true⟩
    rfl rfl rfl (by decide) (by decide) (by decide) (by decide) rfl rfl

/-- C6: if the bulk line lookup fails after the controller was opened,
initialization closes the controller, returns failure, and performs no line
request and no release. -/
theorem C6_lookup_failure (a b c d e : Nat) (env : Env)
    (halloc : env.allocOk = true) (hopen : env.chipOpenOk = true)
    (hlookup : env.lookupOk = false) :
    let res := linux_gpiod_spi_init ⟨some a, some b, some c, some d, some e⟩ env
    res.ret = 1 ∧ closeCount res.trace = 1 ∧ requestCount res.trace = 0 ∧
      releaseCount res.trace = 0 := by
  simp [linux_gpiod_spi_init, initBody, err_exit, halloc, hopen, hlookup,
    releaseCount, closeCount, requestCount, Event.isRelease, Event.isClose,
    Event.isRequest, List.countP_cons, List.countP_nil]

/-- Witness for C6 at a concrete configuration and environment. -/
theorem C6_witness :
    let env : Env := ⟨true, true, false, 0, 0, 0, 0, true, true⟩
    let res := linux_gpiod_spi_init ⟨some 5, some 6, some 7, some 8, some 0⟩ env
    res.ret = 1 ∧ closeCount res.trace = 1 ∧ requestCount res.trace = 0 ∧
      releaseCount res.trace = 0 :=
  C6_lookup_failure 5 6 7 8 0 ⟨true, true, false, 0, 0, 0, 0, true, true⟩ rfl rfl rfl

/-- C7: if registration with the SPI engine fails after the shutdown hook was
registered, initialization returns failure without performing any release,
close or free itself; the shutdown hook stays registered and the backend
state stays allocated (armed). -/
theorem C7_engine_reg_failure (a b c d e : Nat) (env : Env)
    (halloc : env.allocOk = true) (hopen : env.chipOpenOk = true)
    (hlookup : env.lookupOk = true)
    (hcs : 0 ≤ env.reqCs) (hsck : 0 ≤ env.reqSck)
    (hmosi : 0 ≤ env.reqMosi) (hmiso : 0 ≤ env.reqMiso)
    (hsr : env.shutdownRegOk = true) (hspi : env.spiRegOk = false) :
    let res := linux_gpiod_spi_init ⟨some a, some b, some c, some d, some e⟩ env
    res.ret = 1 ∧ releaseCount res.trace = 0 ∧ closeCount res.trace = 0 ∧
      freeCount res.trace = 0 ∧ res.shutdownRegistered = true ∧
      res.data = some ⟨true, 4⟩ := by
  have hr : ¬ ((((env.reqCs.lor env.reqSck).lor env.reqMosi).lor env.reqMiso) < 0) := by
    rw [accumulated_neg_iff]
    omega
  simp [linux_gpiod_spi_init, initBody, err_exit, halloc, hopen, hlookup, hr,
    hsr, hspi, releaseCount, closeCount, freeCount, Event.isRelease,
    Event.isClose, Event.isFree, List.countP_cons, List.countP_nil]

/-- Witness for C7 at a concrete configuration and environment. -/
theorem C7_witness :
    let env : Env := ⟨true, true, true, 0, 0, 0, 0, true, false⟩
    let res := linux_gpiod_spi_init ⟨some 5, some 6, some 7, some 8, some 0⟩ env
    res.ret = 1 ∧ releaseCount res.trace = 0 ∧ closeCount res.trace = 0 ∧
      freeCount res.trace = 0 ∧ res.shutdownRegistered = true ∧
      res.data = some ⟨true, 4⟩ :=
  C7_engine_reg_failure 5 6 7 8 0 ⟨true, true, true, 0, 0, 0, 0, true, false⟩
    rfl rfl rfl (by decide) (by decide) (by decide) (by decide) rfl rfl

/-- C9: if allocation of the backend state fails after all five parameters
resolved, initialization returns failure with zero GPIO calls performed. -/
theorem C9_alloc_failure (a b c d e : Nat) (env : Env)
    (halloc : env.allocOk = false) :
    let res := linux_gpiod_spi_init ⟨some a, some b, some c, some d, some e⟩ env
    res.ret = 1 ∧ gpioCallCount res.trace = 0 ∧
      Event.msg "Unable to allocate space for SPI master data\n" ∈ res.trace := by
  simp [linux_gpiod_spi_init, initBody, err_exit, halloc, gpioCallCount,
    Event.isGpioCall, List.countP_cons, List.countP_nil]

/-- Witness for C9 at a concrete configuration and environment. -/
theorem C9_witness :
    let env : Env := ⟨false, true, true, 0, 0, 0, 0, true, true⟩
    let res := linux_gpiod_spi_init ⟨some 5, some 6, some 7, some 8, some 0⟩ env
    res.ret = 1 ∧ gpioCallCount res.trace = 0 ∧
      Event.msg "Unable to allocate space for SPI master data\n" ∈ res.trace :=
  C9_alloc_failure 5 6 7 8 0 ⟨false, true, true, 0, 0, 0, 0, true, true⟩ rfl

/-- If some parameter is missing, the init loop aborts at the first missing
one: it emits exactly the diagnostic naming that parameter, performs no
external call, and returns 1. -/
theorem init_first_missing (cfg : Cfg) (env : Env)
    (h : ∃ i : Fin 5, cfgGet cfg i = none) :
    ∃ j : Fin 5, cfgGet cfg j = none ∧
      (∀ k, k < j → (cfgGet cfg k).isSome) ∧
      linux_gpiod_spi_init cfg env =
        { ret := 1, trace := [Event.msg (missingMsg (paramName j))],
          shutdownRegistered := false, data := none } := by
  rcases cfg with ⟨c1, c2, c3, c4, c5⟩
  cases c1 with
  | none =>
    refine ⟨⟨0, by omega⟩, by simp [cfgGet], ?_, ?_⟩
    · rintro ⟨kv, hkv⟩ hk
      simp only [Fin.lt_def] at hk
      exact absurd hk (by omega)
    · simp [linux_gpiod_spi_init, err_exit, paramName]
  | some v1 =>
  cases c2 with
  | none =>
    refine ⟨⟨1, by omega⟩, by simp [cfgGet], ?_, ?_⟩
    · rintro ⟨kv, hkv⟩ hk
      simp only [Fin.lt_def] at hk
      interval_cases kv <;> simp [cfgGet]
    · simp [linux_gpiod_spi_init, err_exit, paramName]
  | some v2 =>
  cases c3 with
  | none =>
    refine ⟨⟨2, by omega⟩, by simp [cfgGet], ?_, ?_⟩
    · rintro ⟨kv, hkv⟩ hk
      simp only [Fin.lt_def] at hk
      interval_cases kv <;> simp [cfgGet]
    · simp [linux_gpiod_spi_init, err_exit, paramName]
  | some v3 =>
  cases c4 with
  | none =>
    refine ⟨⟨3, by omega⟩, by simp [cfgGet], ?_, ?_⟩
    · rintro ⟨kv, hkv⟩ hk
      simp only [Fin.lt_def] at hk
      interval_cases kv <;> simp [cfgGet]
    · simp [linux_gpiod_spi_init, err_exit, paramName]
  | some v4 =>
  cases c5 with
  | none =>
    refine ⟨⟨4, by omega⟩, by simp [cfgGet], ?_, ?_⟩
    · rintro ⟨kv, hkv⟩ hk
      simp only [Fin.lt_def] at hk
      interval_cases kv <;> simp [cfgGet]
    · simp [linux_gpiod_spi_init, err_exit, paramName]
  | some v5 =>
    exfalso
    obtain ⟨⟨iv, hiv⟩, hi⟩ := h
    simp only [cfgGet] at hi
    interval_cases iv <;> simp_all

/-- C5: if any of the five parameters is absent, initialization fails,
performs zero GPIO calls, and emits a diagnostic naming a missing parameter;
when the absent parameter is the first missing one (all earlier ones are
present), the diagnostic names exactly it. -/
theorem C5_missing_param (cfg : Cfg) (env : Env) (i : Fin 5)
    (h : cfgGet cfg i = none) :
    let res := linux_gpiod_spi_init cfg env
    res.ret = 1 ∧ gpioCallCount res.trace = 0 ∧
      ∃ j : Fin 5, cfgGet cfg j = none ∧
        Event.msg (missingMsg (paramName j)) ∈ res.trace ∧
        ((∀ k, k < i → (cfgGet cfg k).isSome) → j = i) := by
  obtain ⟨j, hjnone, hjmin, heq⟩ := init_first_missing cfg env ⟨i, h⟩
  refine ⟨by simp [heq],
    by simp [heq, gpioCallCount, Event.isGpioCall, List.countP_cons, List.countP_nil],
    j, hjnone, by simp [heq], ?_⟩
  intro hall
  rcases lt_trichotomy j i with hlt | heqj | hgt
  · exact absurd (hall j hlt) (by simp [hjnone])
  · exact heqj
  · exact absurd (hjmin i hgt) (by simp [h])

/-- Witness for C5: configuration with `miso` (index 3) absent and all
earlier parameters present. -/
theorem C5_witness :
    let cfg : Cfg := ⟨some 5, some 6, some 7, none, some 0⟩
    let env : Env := ⟨true, true, true, 0, 0, 0, 0, true, true⟩
    let res := linux_gpiod_spi_init cfg env
    res.ret = 1 ∧ gpioCallCount res.trace = 0 ∧
      ∃ j : Fin 5, cfgGet cfg j = none ∧
        Event.msg (missingMsg (paramName j)) ∈ res.trace ∧
        ((∀ k, k < (3 : Fin 5) → (cfgGet cfg k).isSome) → j = (3 : Fin 5)) :=
  C5_missing_param ⟨some 5, some 6, some 7, none, some 0⟩
    ⟨true, true, true, 0, 0, 0, 0, true, true⟩ 3 (by decide)

/-- C2 counterexample: the claim says a second shutdown invocation on the
same Backend instance is a no-op with no second release or close.  But
`linux_gpiod_spi_shutdown` has no guard against reinvocation: invoked a
second time on the (already freed) instance of a fully armed backend it
performs a second bulk-release, a second close, and a second free. -/
theorem C2_counterexample :
    releaseCount (shutdownOnCell (shutdownOnCell ⟨⟨true, 4⟩, true⟩).2).1 = 1 ∧
    closeCount (shutdownOnCell (shutdownOnCell ⟨⟨true, 4⟩, true⟩).2).1 = 1 ∧
    freeCount (shutdownOnCell (shutdownOnCell ⟨⟨true, 4⟩, true⟩).2).1 = 1 ∧
    (shutdownOnCell ⟨⟨true, 4⟩, true⟩).2.allocated = false := by
  decide

/-- C2 (amended): one shutdown invocation on a fully armed backend performs
exactly one bulk-release, one close and one free and returns 0; the function
itself has no reinvocation guard — a second invocation on the freed instance
repeats exactly the same release/close/free actions, so at-most-once cleanup
relies on the registry invoking the hook at most once. -/
theorem C2_shutdown_exactly_once (d : GpiodSpiData) (hchip : d.chip = true)
    (hbulk : d.bulkNum = 4) :
    releaseCount (linux_gpiod_spi_shutdown d).1 = 1 ∧
    closeCount (linux_gpiod_spi_shutdown d).1 = 1 ∧
    freeCount (linux_gpiod_spi_shutdown d).1 = 1 ∧
    (linux_gpiod_spi_shutdown d).2 = 0 ∧
    (shutdownOnCell ⟨d, true⟩).2.allocated = false ∧
    (shutdownOnCell (shutdownOnCell ⟨d, true⟩).2).1 =
      (shutdownOnCell ⟨d, true⟩).1 := by
  simp [linux_gpiod_spi_shutdown, shutdownOnCell, hchip, hbulk, releaseCount,
    closeCount, freeCount, Event.isRelease, Event.isClose, Event.isFree,
    List.countP_cons, List.countP_nil]

/-- Witness for the amended C2 on a concrete armed backend. -/
theorem C2_witness :
    releaseCount (linux_gpiod_spi_shutdown ⟨true, 4⟩).1 = 1 ∧
    closeCount (linux_gpiod_spi_shutdown ⟨true, 4⟩).1 = 1 ∧
    freeCount (linux_gpiod_spi_shutdown ⟨true, 4⟩).1 = 1 ∧
    (linux_gpiod_spi_shutdown ⟨true, 4⟩).2 = 0 ∧
    (shutdownOnCell ⟨⟨true, 4⟩, true⟩).2.allocated = false ∧
    (shutdownOnCell (shutdownOnCell ⟨⟨true, 4⟩, true⟩).2).1 =
      (shutdownOnCell ⟨⟨true, 4⟩, true⟩).1 :=
  C2_shutdown_exactly_once ⟨true, 4⟩ rfl rfl

/-- C8: the miso getter returns the underlying read result unchanged, so on a
successful read it returns exactly the sampled value, and on a failed read
(negative result) it returns a negative sentinel distinct from both valid
logic levels 0 and 1. -/
theorem C8_get_miso_sentinel (r : Int) :
    (0 ≤ r → (linux_gpiod_bitbang_get_miso r).1 = r) ∧
    (r < 0 → (linux_gpiod_bitbang_get_miso r).1 < 0 ∧
       (linux_gpiod_bitbang_get_miso r).1 ≠ 0 ∧
       (linux_gpiod_bitbang_get_miso r).1 ≠ 1) := by
  refine ⟨fun _ => rfl, fun hr => ?_⟩
  simp only [linux_gpiod_bitbang_get_miso]
  omega

/-- Witness for C8: a successful read of level 1 and a failed read (-1). -/
theorem C8_witness :
    (linux_gpiod_bitbang_get_miso 1).1 = 1 ∧
    (linux_gpiod_bitbang_get_miso (-1)).1 < 0 :=
  ⟨(C8_get_miso_sentinel 1).1 (by decide),
   ((C8_get_miso_sentinel (-1)).2 (by decide)).1⟩

/-- C10: when the underlying write fails, the mosi setter emits exactly the
diagnostic "Setting sck line failed\n" — identical to `set_sck`'s failure
diagnostic — and that diagnostic does not mention "mosi". -/
theorem C10_mosi_diagnostic (v r : Int) (h : r < 0) :
    msgsOf (linux_gpiod_bitbang_set_mosi v r) = ["Setting sck line failed\n"] ∧
    msgsOf (linux_gpiod_bitbang_set_mosi v r) =
      msgsOf (linux_gpiod_bitbang_set_sck v r) ∧
    strContains "Setting sck line failed\n" "mosi" = false := by
  refine ⟨?_, ?_, by decide⟩ <;>
    simp [linux_gpiod_bitbang_set_mosi, linux_gpiod_bitbang_set_sck, msgsOf, h]

/-- Witness for C10 at a failed write of value 0. -/
theorem C10_witness :
    msgsOf (linux_gpiod_bitbang_set_mosi 0 (-1)) = ["Setting sck line failed\n"] ∧
    msgsOf (linux_gpiod_bitbang_set_mosi 0 (-1)) =
      msgsOf (linux_gpiod_bitbang_set_sck 0 (-1)) ∧
    strContains "Setting sck line failed\n" "mosi" = false :=
  C10_mosi_diagnostic 0 (-1) (by decide)

end LinuxGpiod
